/-
  Verification of the Forge Registry Station firmware (EmbeddedMS3.c).

  The firmware source contains two concatenated variants; the one verified
  here is the USB-serial variant (the later, more complete one, with the
  three-grammar line protocol, the H-bot kinematic mapper and the two-phase
  pickup confirmation).  Pure functions of the firmware are translated into
  Lean functions; the global mutable state becomes an explicit state record
  `SysState`, and one pass of the main loop (`poll_serial();
  state_machine_update();`) becomes the function `tick`.

  Hardware reads are modelled as tick inputs: the debounced button edge
  (`button_check`), the averaged-and-smoothed potentiometer commands
  (`xCmd`/`yCmd`, the values returned by `read_pot_with_deadzone`), the two
  limit-switch levels, and the millisecond clock.  The analog input filter
  itself is modelled separately over exact rationals (`ema_step`,
  `read_pot_with_deadzone`), with C float arithmetic idealized as exact
  rational arithmetic.
-/
import Mathlib

namespace EmbeddedMS3

/-! ## Constants (from the `#define` block of the USB-serial variant) -/

def GRID_SIZE : Int := 5
def ADC_MAX : Int := 4095
def DEADZONE : Int := 600
def PLACEMENT_TIME : Nat := 5000

/-- `qr_sequence = {2, 5, 4, 3}` — the statically configured QR sequence. -/
def qr_sequence : Fin 4 → Int
  | 0 => 2
  | 1 => 5
  | 2 => 4
  | 3 => 3

/-! ## State machine states (`system_state_t`) -/

inductive SystemState where
  | INIT
  | HOMING
  | WAIT_PLATE_1
  | PICK_PLATE_1
  | MOVE_PLATE_1
  | VERIFY_PLATE_1
  | WAIT_PLATE_2
  | PICK_PLATE_2
  | MOVE_PLATE_2
  | VERIFY_PLATE_2
  | COMPLETE
  deriving DecidableEq, Repr

/-! ## Data structures (`aruco_marker_t`, `aruco_plate_t`, `camera_data_t`) -/

structure ArucoMarker where
  id : Int
  grid_row : Int
  grid_col : Int
  valid : Bool
  deriving DecidableEq, Repr

structure ArucoPlate where
  target_x : Int
  target_y : Int
  placed : Bool
  deriving DecidableEq, Repr

structure CameraData where
  current_x : Int
  current_y : Int
  detected_marker : ArucoMarker
  marker_detected : Bool
  deriving DecidableEq, Repr

/-- Electromagnet H-bridge condition: de-energized, forward polarity
(engaged), or reverse polarity left energized (after `magnet_release_hold`).
`magnet_release_final` ends de-energized after its 1 s reverse pulse. -/
inductive MagnetMode where
  | off
  | forward
  | reverse
  deriving DecidableEq, Repr

/-- The firmware's global mutable state (the `static` globals of the
USB-serial variant that the verified claims depend on).  `serial_buffer`
holds the first `serial_idx` characters of the C `serial_buffer` array;
`motor_a`/`motor_b` are the last drive values commanded through
`motor_set_l298` (0 after `motors_stop`). -/
structure SysState where
  current_state : SystemState
  camera : CameraData
  plate_1 : ArucoPlate
  plate_2 : ArucoPlate
  placement_start_time : Nat
  magnet : MagnetMode
  waiting_for_confirmation : Bool
  motor_a : Int
  motor_b : Int
  uv_led : Bool
  serial_buffer : List Char
  deriving DecidableEq, Repr

/-- Hardware observations of one main-loop pass: the bytes available on USB
serial this tick, the debounced button edge (`button_check`), the clock
(`to_ms_since_boot`), the filtered pot commands and the limit-switch levels. -/
structure TickInput where
  serial : List Char
  button : Bool
  time : Nat
  xCmd : Int
  yCmd : Int
  limitX : Bool
  limitY : Bool
  deriving DecidableEq, Repr

/-! ## sscanf-style integer parsing (`sscanf(line, "%d,%d,%d", ...)`) -/

/-- C `isspace` characters (skipped by `%d` before the number). -/
def isSpaceC (c : Char) : Bool :=
  c = ' ' || c = '\t' || c = '\n' || c = '\x0b' || c = '\x0c' || c = '\r'

def skipSpacesC : List Char → List Char
  | [] => []
  | c :: cs => if isSpaceC c then skipSpacesC cs else c :: cs

/-- Split a leading run of decimal digits from the rest. -/
def takeDigits : List Char → List Char × List Char
  | [] => ([], [])
  | c :: cs =>
    if c.isDigit then
      let p := takeDigits cs
      (c :: p.1, p.2)
    else ([], c :: cs)

def digitsToNat (ds : List Char) : Nat :=
  ds.foldl (fun a c => a * 10 + (c.toNat - 48)) 0

/-- One `%d` conversion: skip whitespace, optional sign, at least one digit. -/
def parseIntC (cs : List Char) : Option (Int × List Char) :=
  match skipSpacesC cs with
  | '-' :: rest =>
    let p := takeDigits rest
    if p.1 = [] then none else some (-(digitsToNat p.1 : Int), p.2)
  | '+' :: rest =>
    let p := takeDigits rest
    if p.1 = [] then none else some ((digitsToNat p.1 : Int), p.2)
  | other =>
    let p := takeDigits other
    if p.1 = [] then none else some ((digitsToNat p.1 : Int), p.2)

/-- `sscanf(cs, "%d,%d,%d", &a, &b, &c) == 3`: three `%d` conversions
separated by literal commas; trailing characters are ignored. -/
def parse3Ints (cs : List Char) : Option (Int × Int × Int) :=
  match parseIntC cs with
  | none => none
  | some (a, r1) =>
    match r1 with
    | ',' :: r2 =>
      match parseIntC r2 with
      | none => none
      | some (b, r3) =>
        match r3 with
        | ',' :: r4 =>
          match parseIntC r4 with
          | none => none
          | some (c, _) => some (a, b, c)
        | _ => none
    | _ => none

/-! ## Electromagnet controller and motor outputs -/

/-- `magnet_set`: forward polarity + enable when active, all lines low
otherwise. -/
def magnet_set (s : SysState) (active : Bool) : SysState :=
  { s with magnet := if active then .forward else .off }

/-- `magnet_release_hold`: reverse polarity and keep the driver energized
until the next pickup. -/
def magnet_release_hold (s : SysState) : SysState :=
  { s with magnet := .reverse }

/-- `magnet_release_final`: reverse pulse for 1000 ms, then fully
de-energize; the post-call state is de-energized. -/
def magnet_release_final (s : SysState) : SysState :=
  { s with magnet := .off }

/-- `motors_stop`: both motors braked (`motor_set_l298(..., 0)`). -/
def motors_stop (s : SysState) : SysState :=
  { s with motor_a := 0, motor_b := 0 }

/-! ## H-bot kinematic mapper (`hbot_drive`) -/

/-- Clamp a combined command to the valid `[-255, 255]` range, in the order
the C code tests (`> 255` first, then `< -255`). -/
def clamp255 (v : Int) : Int :=
  if v > 255 then 255 else if v < -255 then -255 else v

/-- The limit-switch vetoes at the top of `hbot_drive`: the Y limit
(LIMIT_Y_PIN, hit when homing moves left) zeroes a further-left command
`x_cmd < 0`; the X limit (LIMIT_X_PIN, hit when homing moves down) zeroes a
further-down command `y_cmd > 0`. -/
def hbot_veto (x_cmd y_cmd : Int) (x_limit y_limit : Bool) : Int × Int :=
  (if y_limit ∧ x_cmd < 0 then 0 else x_cmd,
   if x_limit ∧ y_cmd > 0 then 0 else y_cmd)

/-- The pre-clamp motor combination of `hbot_drive`:
`motor_a = x_cmd + y_cmd`, `motor_b = x_cmd - y_cmd` after the vetoes. -/
def hbot_pre (x_cmd y_cmd : Int) (x_limit y_limit : Bool) : Int × Int :=
  let v := hbot_veto x_cmd y_cmd x_limit y_limit
  (v.1 + v.2, v.1 - v.2)

/-- `hbot_drive`: veto, combine, clamp.  Returns the drive pair
`(motor_a, motor_b)` handed to `motor_set_l298`. -/
def hbot_drive (x_cmd y_cmd : Int) (x_limit y_limit : Bool) : Int × Int :=
  let p := hbot_pre x_cmd y_cmd x_limit y_limit
  (clamp255 p.1, clamp255 p.2)

/-- `update_motors_from_pots_hbot`: feed the filtered pot commands of this
tick through `hbot_drive` and latch the drive pair on the motors. -/
def update_motors_from_pots_hbot (i : TickInput) (s : SysState) : SysState :=
  let p := hbot_drive i.xCmd i.yCmd i.limitX i.limitY
  { s with motor_a := p.1, motor_b := p.2 }

/-! ## Serial line handler (`handle_serial_line`) -/

/-- `handle_serial_line`, the three-grammar line handler of the USB-serial
variant: `PICKUP,<id>,<row>,<col>` (prefix test then `sscanf`), then
`RELEASE` (a 7-character prefix test), then a bare `<id>,<row>,<col>`
position report.  Anything else is ignored. -/
def handle_serial_line (line : List Char) (s : SysState) : SysState :=
  if ("PICKUP,".toList).isPrefixOf line then
    match parse3Ints (line.drop 7) with
    | some (_, target_row, target_col) =>
      if s.current_state = .WAIT_PLATE_1 ∨ s.current_state = .PICK_PLATE_1 then
        { s with plate_1 := { s.plate_1 with target_x := target_col, target_y := target_row } }
      else if s.current_state = .WAIT_PLATE_2 ∨ s.current_state = .PICK_PLATE_2 then
        { s with plate_2 := { s.plate_2 with target_x := target_col, target_y := target_row } }
      else s
    | none => s
  else if ("RELEASE".toList).isPrefixOf line then
    if s.current_state = .VERIFY_PLATE_1 ∨ s.current_state = .MOVE_PLATE_1 then
      let s := magnet_release_hold s
      let s := motors_stop s
      { s with plate_1 := { s.plate_1 with placed := true },
               current_state := .WAIT_PLATE_2,
               camera := { s.camera with marker_detected := false },
               placement_start_time := 0 }
    else if s.current_state = .VERIFY_PLATE_2 ∨ s.current_state = .MOVE_PLATE_2 then
      let s := magnet_release_final s
      let s := motors_stop s
      { s with plate_2 := { s.plate_2 with placed := true },
               current_state := .COMPLETE,
               camera := { s.camera with marker_detected := false },
               placement_start_time := 0 }
    else s
  else
    match parse3Ints line with
    | some (id, row, col) =>
      { s with camera := { current_x := col, current_y := row,
                           detected_marker := ⟨id, row, col, true⟩,
                           marker_detected := true } }
    | none => s

/-! ## Serial polling (`poll_serial`) -/

/-- One character of `poll_serial`'s drain loop: `'\r'` is skipped, `'\n'`
terminates the buffered line and hands it to `handle_serial_line`, any other
character is appended while the index is below `sizeof(serial_buffer) - 1 =
127`, and otherwise the buffer index is reset (overflow). -/
def poll_char (s : SysState) (c : Char) : SysState :=
  if c = '\r' then s
  else if c = '\n' then
    let s' := handle_serial_line s.serial_buffer s
    { s' with serial_buffer := [] }
  else if s.serial_buffer.length < 127 then
    { s with serial_buffer := s.serial_buffer ++ [c] }
  else
    { s with serial_buffer := [] }

/-- `poll_serial`: drain every byte available this tick. -/
def poll_serial (chars : List Char) (s : SysState) : SysState :=
  chars.foldl poll_char s

/-! ## Targets, homing, dwell arithmetic -/

/-- `init_targets_from_qr`: plate 1 gets `(qr[0]-1, qr[1]-1)`, plate 2 gets
`(qr[2]-1, qr[3]-1)` (x is the column, y the row), both unplaced. -/
def init_targets_from_qr (s : SysState) : SysState :=
  { s with
    plate_1 := { target_x := qr_sequence 0 - 1, target_y := qr_sequence 1 - 1, placed := false },
    plate_2 := { target_x := qr_sequence 2 - 1, target_y := qr_sequence 3 - 1, placed := false } }

/-- `homing_sequence`: drives to both limit switches (blocking; modelled as
completing within the tick), stops the motors, and declares the current
logical position to be `(0,0)`. -/
def homing_sequence (s : SysState) : SysState :=
  let s := motors_stop s
  { s with camera := { s.camera with current_x := 0, current_y := 0 } }

/-- `check_target_reached`: current camera position equals the target cell. -/
def check_target_reached (s : SysState) (target_x target_y : Int) : Bool :=
  s.camera.current_x = target_x ∧ s.camera.current_y = target_y

/-- `uint32_t` subtraction `a - b` (mod 2^32), as used for elapsed-time
tests on `to_ms_since_boot` values. -/
def u32sub (a b : Nat) : Nat :=
  (a + 4294967296 - b % 4294967296) % 4294967296

/-! ## Workflow state machine (`state_machine_update`) -/

/-- The two-phase WAIT_PLATE_1 detection condition: a marker with ID 1 or 2
reported at the origin cell (0,0). -/
def wait1_detect (s : SysState) : Bool :=
  s.camera.marker_detected ∧
  (s.camera.detected_marker.id = 1 ∨ s.camera.detected_marker.id = 2) ∧
  s.camera.detected_marker.grid_row = 0 ∧ s.camera.detected_marker.grid_col = 0

/-- The WAIT_PLATE_2 detection condition: any marker reported at the origin
cell (0,0) — no ID check. -/
def wait2_detect (s : SysState) : Bool :=
  s.camera.marker_detected ∧
  s.camera.detected_marker.grid_row = 0 ∧ s.camera.detected_marker.grid_col = 0

/-- Target swap performed in WAIT_PLATE_1 when the detected marker carries
ID 2: the two plates' target coordinates are exchanged. -/
def swap_plate_targets (s : SysState) : SysState :=
  { s with
    plate_1 := { s.plate_1 with target_x := s.plate_2.target_x, target_y := s.plate_2.target_y },
    plate_2 := { s.plate_2 with target_x := s.plate_1.target_x, target_y := s.plate_1.target_y } }

/-- `state_machine_update`: one evaluation of the workflow switch, with
`current_time` read once at entry. -/
def state_machine_update (i : TickInput) (s : SysState) : SysState :=
  match s.current_state with
  | .INIT =>
    let s := init_targets_from_qr s
    let s := magnet_set s false
    { s with current_state := .HOMING }
  | .HOMING =>
    let s := magnet_set s false
    let s := homing_sequence s
    { s with current_state := .WAIT_PLATE_1 }
  | .WAIT_PLATE_1 =>
    if wait1_detect s then
      if ¬ s.waiting_for_confirmation then
        let s := if s.camera.detected_marker.id = 2 then swap_plate_targets s else s
        { s with waiting_for_confirmation := true }
      else if i.button then
        let s := magnet_set s true
        { s with waiting_for_confirmation := false, current_state := .PICK_PLATE_1 }
      else s
    else
      if s.waiting_for_confirmation then { s with waiting_for_confirmation := false } else s
  | .PICK_PLATE_1 =>
    { s with current_state := .MOVE_PLATE_1, placement_start_time := 0 }
  | .MOVE_PLATE_1 =>
    let s := update_motors_from_pots_hbot i s
    if check_target_reached s s.plate_1.target_x s.plate_1.target_y then
      let s := if s.placement_start_time = 0 then { s with placement_start_time := i.time } else s
      { s with current_state := .VERIFY_PLATE_1 }
    else s
  | .VERIFY_PLATE_1 =>
    let s := update_motors_from_pots_hbot i s
    if ¬ check_target_reached s s.plate_1.target_x s.plate_1.target_y then
      { s with placement_start_time := 0, current_state := .MOVE_PLATE_1 }
    else if u32sub i.time s.placement_start_time ≥ PLACEMENT_TIME then
      let s := magnet_release_hold s
      let s := motors_stop s
      { s with plate_1 := { s.plate_1 with placed := true },
               current_state := .WAIT_PLATE_2,
               camera := { s.camera with marker_detected := false } }
    else s
  | .WAIT_PLATE_2 =>
    if wait2_detect s then
      if ¬ s.waiting_for_confirmation then
        { s with waiting_for_confirmation := true }
      else if i.button then
        let s := magnet_set s true
        { s with waiting_for_confirmation := false, current_state := .PICK_PLATE_2 }
      else s
    else
      if s.waiting_for_confirmation then { s with waiting_for_confirmation := false } else s
  | .PICK_PLATE_2 =>
    { s with current_state := .MOVE_PLATE_2, placement_start_time := 0 }
  | .MOVE_PLATE_2 =>
    let s := update_motors_from_pots_hbot i s
    if check_target_reached s s.plate_2.target_x s.plate_2.target_y then
      let s := if s.placement_start_time = 0 then { s with placement_start_time := i.time } else s
      { s with current_state := .VERIFY_PLATE_2 }
    else s
  | .VERIFY_PLATE_2 =>
    let s := update_motors_from_pots_hbot i s
    if ¬ check_target_reached s s.plate_2.target_x s.plate_2.target_y then
      { s with placement_start_time := 0, current_state := .MOVE_PLATE_2 }
    else if u32sub i.time s.placement_start_time ≥ PLACEMENT_TIME then
      let s := magnet_release_final s
      let s := motors_stop s
      { s with plate_2 := { s.plate_2 with placed := true },
               current_state := .COMPLETE,
               uv_led := true }
    else s
  | .COMPLETE =>
    motors_stop s

/-- One pass of the normal-operation main loop:
`poll_serial(); state_machine_update();`. -/
def tick (i : TickInput) (s : SysState) : SysState :=
  state_machine_update i (poll_serial i.serial s)

/-- The global state at entry to the main loop: state INIT, all camera and
plate data zeroed, timer unarmed, magnet off, motors stopped (after the
startup movement test), serial buffer empty. -/
def initialState : SysState :=
  { current_state := .INIT
    camera := { current_x := 0, current_y := 0,
                detected_marker := ⟨0, 0, 0, false⟩, marker_detected := false }
    plate_1 := { target_x := 0, target_y := 0, placed := false }
    plate_2 := { target_x := 0, target_y := 0, placed := false }
    placement_start_time := 0
    magnet := .off
    waiting_for_confirmation := false
    motor_a := 0
    motor_b := 0
    uv_led := false
    serial_buffer := [] }

/-! ## Analog input filter (`read_pot_with_deadzone`)

The C function averages `ADC_SAMPLES` raw reads, updates a per-axis
exponential-smoothing state, truncates it to `int`, and maps it through the
deadzone and the sign-preserving quadratic curve.  Float arithmetic is
modelled as exact rational arithmetic; the per-axis smoothing state becomes
the explicit `smoothed` argument. -/

/-- `SMOOTHING_FACTOR 0.3f`. -/
def SMOOTHING_FACTOR : ℚ := 3 / 10

/-- One tick of the exponential moving average:
`smoothed = smoothed*(1 - SMOOTHING_FACTOR) + raw*SMOOTHING_FACTOR`. -/
def ema_step (smoothed raw : ℚ) : ℚ :=
  smoothed * (1 - SMOOTHING_FACTOR) + raw * SMOOTHING_FACTOR

/-- C cast `(int)q`: truncation toward zero. -/
def truncQ (q : ℚ) : Int :=
  if 0 ≤ q then ⌊q⌋ else ⌈q⌉

/-- The pure core of `read_pot_with_deadzone`, as a function of the current
smoothing state: truncate, center on `mid = ADC_MAX / 2 = 2047`, apply the
deadzone, then the sign-preserving quadratic response clamped to
`[-255, 255]` and truncated to `int`. -/
def read_pot_with_deadzone (smoothed : ℚ) : Int :=
  let smoothed_int : Int := truncQ smoothed
  let mid : Int := ADC_MAX / 2
  let centered : Int := smoothed_int - mid
  if |centered| < DEADZONE then 0
  else
    let norm : ℚ := (centered : ℚ) / (mid : ℚ)
    let sign : ℚ := if 0 ≤ norm then 1 else -1
    let magnitude : ℚ := |norm|
    let scaled : ℚ := sign * magnitude * magnitude * 255
    let scaled := if scaled > 255 then 255 else scaled
    let scaled := if scaled < -255 then -255 else scaled
    truncQ scaled

/-! ## Concrete runs used by counterexamples and witnesses -/

/-- A tick with no serial input, no button edge, centered pots, no limits. -/
def quietTick (t : Nat) : TickInput :=
  { serial := [], button := false, time := t, xCmd := 0, yCmd := 0,
    limitX := false, limitY := false }

/-- A tick delivering one serial string. -/
def serialTick (str : String) (t : Nat) : TickInput :=
  { quietTick t with serial := str.toList }

/-- A tick with a debounced button edge. -/
def buttonTick (t : Nat) : TickInput :=
  { quietTick t with button := true }

/-- After two quiet ticks the machine has run INIT and HOMING and sits in
WAIT_PLATE_1 with the configured targets (1,4) and (3,2). -/
def demoWait1 : SysState :=
  tick (quietTick 200) (tick (quietTick 100) initialState)

/-- Continue `demoWait1`: report marker 1 at the origin, confirm with the
button, then (during the PICK tick) receive a report that the plate is at
plate 1's target cell.  The machine ends the tick in MOVE_PLATE_1. -/
def demoMove1 : SysState :=
  tick (serialTick "1,4,1\n" 500)
    (tick (buttonTick 400) (tick (serialTick "1,0,0\n" 300) demoWait1))

/-! ## Definitions for claims C3 / C4 / C9 -/

/-- First tick of the C3 run: marker ID 2 reported at the origin while in
WAIT_PLATE_1 — the pending flag arms and the targets are swapped. -/
def c3swapOnce : SysState :=
  tick (serialTick "2,0,0\n" 300) demoWait1

/-- Rest of the C3 run: the marker is reported away from the origin (the
pending flag resets), then back at the origin (the flag re-arms and the
targets are swapped a second time), then the button confirms the pickup. -/
def c3run : SysState :=
  tick (buttonTick 600)
    (tick (serialTick "2,0,0\n" 500) (tick (serialTick "2,1,1\n" 400) c3swapOnce))

/-- The C4 run: a position report with out-of-range coordinates received in
WAIT_PLATE_1. -/
def c4bad : SysState :=
  tick (serialTick "1,9,9\n" 300) demoWait1

/-- A grid coordinate within the 5×5 grid. -/
abbrev coordOK (v : Int) : Prop := 0 ≤ v ∧ v ≤ 4

/-- All stored grid coordinates (current position, detected marker cell,
both plate targets) lie within the 5×5 grid. -/
abbrev coordsInRange (s : SysState) : Prop :=
  coordOK s.camera.current_x ∧ coordOK s.camera.current_y ∧
  coordOK s.camera.detected_marker.grid_row ∧ coordOK s.camera.detected_marker.grid_col ∧
  coordOK s.plate_1.target_x ∧ coordOK s.plate_1.target_y ∧
  coordOK s.plate_2.target_x ∧ coordOK s.plate_2.target_y

/-- A line carries only in-range coordinates: mirrors the grammar priority
of `handle_serial_line` and requires the row/col of a successfully parsed
PICKUP directive or position report to lie in `[0,4]`. -/
def lineOK (line : List Char) : Bool :=
  if ("PICKUP,".toList).isPrefixOf line then
    match parse3Ints (line.drop 7) with
    | some (_, r, c) => decide (coordOK r ∧ coordOK c)
    | none => true
  else if ("RELEASE".toList).isPrefixOf line then true
  else
    match parse3Ints line with
    | some (_, r, c) => decide (coordOK r ∧ coordOK c)
    | none => true

/-- The C9 run: while in MOVE_PLATE_1, a single 136-byte line arrives whose
last seven bytes before the terminator spell `RELEASE`. -/
def c9run : SysState :=
  tick { quietTick 600 with serial := List.replicate 128 'X' ++ "RELEASE\n".toList }
    demoMove1

/-- A state with the serial accumulation buffer cleared; used to express
that the parser changed nothing but its buffer. -/
def dropBuffer (s : SysState) : SysState :=
  { s with serial_buffer := [] }

/-! ## Definitions for claim C2 -/

/-- The placement-timer discipline at tick boundaries: in a MOVE state the
timer is unarmed; in a VERIFY state it is armed *and* the current position
equals the active plate's target. -/
abbrev timerInv (s : SysState) : Prop :=
  ((s.current_state = .MOVE_PLATE_1 ∨ s.current_state = .MOVE_PLATE_2) →
    s.placement_start_time = 0) ∧
  (s.current_state = .VERIFY_PLATE_1 →
    s.placement_start_time ≠ 0 ∧
    check_target_reached s s.plate_1.target_x s.plate_1.target_y = true) ∧
  (s.current_state = .VERIFY_PLATE_2 →
    s.placement_start_time ≠ 0 ∧
    check_target_reached s s.plate_2.target_x s.plate_2.target_y = true)

/-- Mid-tick weakening of `timerInv`: a position report arriving during the
serial drain may break the position part in a VERIFY state (the state
machine repairs it in the same tick), but the arming part survives. -/
abbrev timerInvWeak (s : SysState) : Prop :=
  ((s.current_state = .MOVE_PLATE_1 ∨ s.current_state = .MOVE_PLATE_2) →
    s.placement_start_time = 0) ∧
  ((s.current_state = .VERIFY_PLATE_1 ∨ s.current_state = .VERIFY_PLATE_2) →
    s.placement_start_time ≠ 0)

/-! ## Claims C7 / C8 — analog input filter -/

/-- The clamp of the quadratic response, in the order the C code tests. -/
def clampQ (q : ℚ) : ℚ :=
  let q1 := if q > 255 then 255 else q
  if q1 < -255 then -255 else q1

/-- The sign-preserving quadratic response of `read_pot_with_deadzone` as a
function of the centered value. -/
def quadResponse (c : Int) : ℚ :=
  (if 0 ≤ ((c : ℚ) / 2047) then 1 else -1) * |(c : ℚ) / 2047| * |(c : ℚ) / 2047| * 255

/-- The filter output as a function of the centered integer value. -/
def potOut (c : Int) : Int :=
  if |c| < DEADZONE then 0 else truncQ (clampQ (quadResponse c))


/-! ## Claim C1 — RELEASE override -/

/-- **C1.**  For every state in {MOVE_PLATE_1, VERIFY_PLATE_1}, handling the
input line `RELEASE` performs the magnet hold-release, marks plate 1 placed,
stops the motors, disarms the timer and transitions to WAIT_PLATE_2 — with
no condition on the current position or the dwell; for every state in
{MOVE_PLATE_2, VERIFY_PLATE_2} it performs the final-release (ending with
the magnet de-energized) and transitions to COMPLETE. -/
theorem c1_release_override (s : SysState) :
    (s.current_state = .MOVE_PLATE_1 ∨ s.current_state = .VERIFY_PLATE_1 →
      (handle_serial_line "RELEASE".toList s).current_state = .WAIT_PLATE_2 ∧
      (handle_serial_line "RELEASE".toList s).magnet = .reverse ∧
      (handle_serial_line "RELEASE".toList s).plate_1.placed = true ∧
      (handle_serial_line "RELEASE".toList s).motor_a = 0 ∧
      (handle_serial_line "RELEASE".toList s).motor_b = 0 ∧
      (handle_serial_line "RELEASE".toList s).placement_start_time = 0) ∧
    (s.current_state = .MOVE_PLATE_2 ∨ s.current_state = .VERIFY_PLATE_2 →
      (handle_serial_line "RELEASE".toList s).current_state = .COMPLETE ∧
      (handle_serial_line "RELEASE".toList s).magnet = .off ∧
      (handle_serial_line "RELEASE".toList s).plate_2.placed = true ∧
      (handle_serial_line "RELEASE".toList s).motor_a = 0 ∧
      (handle_serial_line "RELEASE".toList s).motor_b = 0) := by
  have hp : ("PICKUP,".toList).isPrefixOf ("RELEASE".toList) = false := by decide
  have hr : ("RELEASE".toList).isPrefixOf ("RELEASE".toList) = true := by decide
  constructor
  · rintro (h | h) <;>
      simp [handle_serial_line, hp, hr, h, magnet_release_hold, motors_stop]
  · rintro (h | h) <;>
      simp [handle_serial_line, hp, hr, h, magnet_release_final, motors_stop]

/-- Witness for C1 at the concrete reachable state `demoMove1`. -/
theorem c1_release_override_witness :
    (demoMove1.current_state = .MOVE_PLATE_1 ∨
     demoMove1.current_state = .VERIFY_PLATE_1) ∧
    (handle_serial_line "RELEASE".toList demoMove1).current_state = .WAIT_PLATE_2 ∧
    (handle_serial_line "RELEASE".toList demoMove1).magnet = .reverse ∧
    (handle_serial_line "RELEASE".toList demoMove1).plate_1.placed = true ∧
    (handle_serial_line "RELEASE".toList demoMove1).motor_a = 0 ∧
    (handle_serial_line "RELEASE".toList demoMove1).motor_b = 0 ∧
    (handle_serial_line "RELEASE".toList demoMove1).placement_start_time = 0 :=
  ⟨by decide, (c1_release_override demoMove1).1 (by decide)⟩

/-! ## Claim C5 — kinematic invertibility -/

/-- **C5.**  For all command pairs in `[-255,255]²` with no limit asserted,
the pre-clamp motor combination satisfies `motorA + motorB = 2·x` and
`motorA - motorB = 2·y`, and `hbot_drive` is the clamp of that
combination. -/
theorem c5_kinematic_invertibility (x y : Int)
    (hx1 : -255 ≤ x) (hx2 : x ≤ 255) (hy1 : -255 ≤ y) (hy2 : y ≤ 255) :
    (hbot_pre x y false false).1 + (hbot_pre x y false false).2 = 2 * x ∧
    (hbot_pre x y false false).1 - (hbot_pre x y false false).2 = 2 * y ∧
    hbot_drive x y false false =
      (clamp255 (hbot_pre x y false false).1, clamp255 (hbot_pre x y false false).2) := by
  refine ⟨?_, ?_, rfl⟩ <;> simp [hbot_pre, hbot_veto] <;> ring

/-- Witness for C5 at `(x, y) = (100, -30)`. -/
theorem c5_kinematic_invertibility_witness :
    ((-255 : Int) ≤ 100 ∧ (100 : Int) ≤ 255 ∧ (-255 : Int) ≤ -30 ∧ (-30 : Int) ≤ 255) ∧
    (hbot_pre 100 (-30) false false).1 + (hbot_pre 100 (-30) false false).2 = 2 * 100 ∧
    (hbot_pre 100 (-30) false false).1 - (hbot_pre 100 (-30) false false).2 = 2 * (-30) :=
  ⟨by decide,
   (c5_kinematic_invertibility 100 (-30) (by decide) (by decide) (by decide) (by decide)).1,
   (c5_kinematic_invertibility 100 (-30) (by decide) (by decide) (by decide) (by decide)).2.1⟩

/-! ## Claim C6 — limit-switch veto -/

lemma clamp255_mono {a b : Int} (h : a ≤ b) : clamp255 a ≤ clamp255 b := by
  unfold clamp255
  split_ifs <;> omega

lemma clamp255_neg (a : Int) : clamp255 (-a) = -clamp255 a := by
  unfold clamp255
  split_ifs <;> omega

lemma clamp255_sum_nonneg {u v : Int} (h : 0 ≤ u + v) :
    0 ≤ clamp255 u + clamp255 v := by
  have h1 : -v ≤ u := by omega
  have h2 := clamp255_mono h1
  rw [clamp255_neg] at h2
  omega

lemma clamp255_diff_nonpos {u v : Int} (h : u ≤ v) :
    clamp255 u - clamp255 v ≤ 0 := by
  have := clamp255_mono h
  omega

lemma hbot_drive_eq (x y : Int) (xl yl : Bool) :
    hbot_drive x y xl yl =
      (clamp255 ((hbot_veto x y xl yl).1 + (hbot_veto x y xl yl).2),
       clamp255 ((hbot_veto x y xl yl).1 - (hbot_veto x y xl yl).2)) := rfl

lemma hbot_veto_fst (x y : Int) (xl : Bool) :
    (hbot_veto x y xl true).1 = if x < 0 then 0 else x := by
  simp [hbot_veto]

lemma hbot_veto_snd (x y : Int) (yl : Bool) :
    (hbot_veto x y true yl).2 = if y > 0 then 0 else y := by
  simp [hbot_veto]

/-- **C6.**  If the Y limit switch (hit when homing drives left) is
asserted, the drive pair never produces net leftward motion
(`motorA + motorB ≥ 0`), and a rightward/neutral `x` command passes the veto
unchanged; symmetrically, if the X limit switch (hit when homing drives
down) is asserted, the drive pair never produces net downward motion
(`motorA - motorB ≤ 0`), and an upward/neutral `y` command passes the veto
unchanged. -/
theorem c6_limit_switch_veto (x y : Int) (xl yl : Bool) :
    (yl = true → 0 ≤ (hbot_drive x y xl yl).1 + (hbot_drive x y xl yl).2) ∧
    (yl = true → 0 ≤ x → (hbot_veto x y xl yl).1 = x) ∧
    (xl = true → (hbot_drive x y xl yl).1 - (hbot_drive x y xl yl).2 ≤ 0) ∧
    (xl = true → y ≤ 0 → (hbot_veto x y xl yl).2 = y) := by
  refine ⟨?_, ?_, ?_, ?_⟩
  · intro hyl
    subst hyl
    have hx : 0 ≤ (hbot_veto x y xl true).1 := by
      rw [hbot_veto_fst]
      split_ifs <;> omega
    rw [hbot_drive_eq]
    exact clamp255_sum_nonneg (by omega)
  · intro hyl hx
    subst hyl
    rw [hbot_veto_fst]
    split_ifs <;> omega
  · intro hxl
    subst hxl
    have hy : (hbot_veto x y true yl).2 ≤ 0 := by
      rw [hbot_veto_snd]
      split_ifs <;> omega
    rw [hbot_drive_eq]
    exact clamp255_diff_nonpos (by omega)
  · intro hxl hy
    subst hxl
    rw [hbot_veto_snd]
    split_ifs <;> omega

/-- Witness for C6 with both limits asserted and commands driving into
them. -/
theorem c6_limit_switch_veto_witness :
    0 ≤ (hbot_drive (-120) 80 true true).1 + (hbot_drive (-120) 80 true true).2 ∧
    (hbot_drive (-120) 80 true true).1 - (hbot_drive (-120) 80 true true).2 ≤ 0 ∧
    (0 : Int) ≤ 50 ∧ (hbot_veto 50 (-60) true true).1 = 50 ∧
    ((-60 : Int) ≤ 0) ∧ (hbot_veto 50 (-60) true true).2 = -60 :=
  ⟨(c6_limit_switch_veto (-120) 80 true true).1 rfl,
   (c6_limit_switch_veto (-120) 80 true true).2.2.1 rfl,
   by decide,
   (c6_limit_switch_veto 50 (-60) true true).2.1 rfl (by decide),
   by decide,
   (c6_limit_switch_veto 50 (-60) true true).2.2.2 rfl (by decide)⟩

/-! ## Claim C10 — implicit: WAIT_PLATE_2 has no marker-ID check -/

/-- **C10.**  In WAIT_PLATE_2, a detected marker at the origin cell with
*any* ID arms the pending-confirmation flag, and once armed a button edge
starts the plate-2 pickup; in WAIT_PLATE_1 a marker whose ID is neither 1
nor 2 never arms the flag nor leaves the state. -/
theorem c10_wait2_no_id_check (s : SysState) (i : TickInput) :
    (s.current_state = .WAIT_PLATE_2 → s.camera.marker_detected = true →
      s.camera.detected_marker.grid_row = 0 → s.camera.detected_marker.grid_col = 0 →
      s.waiting_for_confirmation = false →
      (state_machine_update i s).waiting_for_confirmation = true ∧
      (state_machine_update i s).current_state = .WAIT_PLATE_2) ∧
    (s.current_state = .WAIT_PLATE_2 → s.camera.marker_detected = true →
      s.camera.detected_marker.grid_row = 0 → s.camera.detected_marker.grid_col = 0 →
      s.waiting_for_confirmation = true → i.button = true →
      (state_machine_update i s).current_state = .PICK_PLATE_2 ∧
      (state_machine_update i s).magnet = .forward) ∧
    (s.current_state = .WAIT_PLATE_1 → s.camera.detected_marker.id ≠ 1 →
      s.camera.detected_marker.id ≠ 2 →
      (state_machine_update i s).current_state = .WAIT_PLATE_1 ∧
      (state_machine_update i s).waiting_for_confirmation = false) := by
  refine ⟨?_, ?_, ?_⟩
  · intro hs hm hr hc hw
    simp [state_machine_update, hs, wait2_detect, hm, hr, hc, hw]
  · intro hs hm hr hc hw hb
    simp [state_machine_update, hs, wait2_detect, hm, hr, hc, hw, hb, magnet_set]
  · intro hs h1 h2
    have hd : wait1_detect s = false := by
      simp [wait1_detect, h1, h2]
    simp only [state_machine_update, hs, hd, Bool.false_eq_true, if_false]
    split_ifs <;> simp_all

lemma read_pot_eq_potOut (q : ℚ) :
    read_pot_with_deadzone q = potOut (truncQ q - 2047) := by
  have hmid : (ADC_MAX / 2 : Int) = 2047 := by decide
  simp only [read_pot_with_deadzone, potOut, quadResponse, clampQ, hmid]
  norm_cast

lemma truncQ_intCast (n : Int) : truncQ (n : ℚ) = n := by
  unfold truncQ
  split_ifs <;> simp

lemma truncQ_mono {a b : ℚ} (h : a ≤ b) : truncQ a ≤ truncQ b := by
  unfold truncQ
  split_ifs with h1 h2 h2
  · exact Int.floor_le_floor h
  · exact absurd (le_trans h1 h) h2
  · have ha : (⌈a⌉ : Int) ≤ 0 := Int.ceil_le.mpr (by exact_mod_cast le_of_lt (not_le.mp h1))
    have hb : (0 : Int) ≤ ⌊b⌋ := Int.floor_nonneg.mpr h2
    omega
  · exact Int.ceil_le_ceil h

lemma truncQ_neg (q : ℚ) : truncQ (-q) = -truncQ q := by
  unfold truncQ
  rcases lt_trichotomy q 0 with h | h | h
  · rw [if_pos (by linarith), if_neg (not_le.mpr h), Int.floor_neg]
  · subst h; simp
  · rw [if_neg (by simpa using h), if_pos (le_of_lt h), Int.ceil_neg]

lemma truncQ_nonneg {q : ℚ} (h : 0 ≤ q) : 0 ≤ truncQ q := by
  have := truncQ_mono h
  rwa [show truncQ 0 = 0 by unfold truncQ; simp] at this

lemma truncQ_nonpos {q : ℚ} (h : q ≤ 0) : truncQ q ≤ 0 := by
  have := truncQ_mono h
  rwa [show truncQ 0 = 0 by unfold truncQ; simp] at this

lemma clampQ_mono {a b : ℚ} (h : a ≤ b) : clampQ a ≤ clampQ b := by
  unfold clampQ
  split_ifs <;> dsimp only <;> split_ifs <;> linarith

lemma clampQ_neg (q : ℚ) : clampQ (-q) = -clampQ q := by
  unfold clampQ
  split_ifs <;> dsimp only <;> split_ifs <;> linarith

lemma clampQ_bounds (q : ℚ) : -255 ≤ clampQ q ∧ clampQ q ≤ 255 := by
  unfold clampQ
  split_ifs <;> dsimp only <;> split_ifs <;> constructor <;> linarith

lemma quadResponse_eq (c : Int) :
    quadResponse c = (c : ℚ) * |(c : ℚ)| * 255 / (2047 * 2047) := by
  unfold quadResponse
  rcases le_or_lt 0 (c : ℚ) with h | h
  · rw [if_pos (by positivity), abs_of_nonneg (by positivity)]
    rw [abs_of_nonneg h]
    ring
  · have hn : (c : ℚ) / 2047 < 0 := by
      apply div_neg_of_neg_of_pos h
      norm_num
    rw [if_neg (not_le.mpr hn), abs_of_neg hn, abs_of_neg h]
    ring

lemma quadResponse_mono {a b : Int} (h : a ≤ b) :
    quadResponse a ≤ quadResponse b := by
  rw [quadResponse_eq, quadResponse_eq]
  have hq : (a : ℚ) ≤ (b : ℚ) := by exact_mod_cast h
  apply div_le_div_of_nonneg_right ?_ (by norm_num)
  apply mul_le_mul_of_nonneg_right ?_ (by norm_num)
  rcases le_or_lt 0 (a : ℚ) with ha | ha
  · rw [abs_of_nonneg ha, abs_of_nonneg (le_trans ha hq)]
    nlinarith
  · rcases le_or_lt 0 (b : ℚ) with hb | hb
    · have h1 : (a : ℚ) * |(a : ℚ)| ≤ 0 := by
        rw [abs_of_neg ha]; nlinarith
      have h2 : (0 : ℚ) ≤ (b : ℚ) * |(b : ℚ)| := by
        rw [abs_of_nonneg hb]; nlinarith
      linarith
    · rw [abs_of_neg ha, abs_of_neg hb]
      nlinarith

lemma quadResponse_neg (c : Int) : quadResponse (-c) = -quadResponse c := by
  rw [quadResponse_eq, quadResponse_eq]
  push_cast
  rw [abs_neg]
  ring

lemma quadResponse_nonneg {c : Int} (h : 0 ≤ c) : 0 ≤ quadResponse c := by
  rw [quadResponse_eq]
  have : (0 : ℚ) ≤ (c : ℚ) := by exact_mod_cast h
  positivity

lemma potOut_mono {a b : Int} (h : a ≤ b) : potOut a ≤ potOut b := by
  unfold potOut
  split_ifs with h1 h2 h2
  · exact le_refl 0
  · -- a inside the deadzone, b outside: b ≥ DEADZONE > 0
    have hb : 0 ≤ b := by
      simp only [DEADZONE] at h1 h2
      have h1' := abs_lt.mp h1
      rcases le_abs.mp (not_lt.mp h2) with h | h <;> omega
    apply truncQ_nonneg
    have hq := quadResponse_nonneg hb
    have := clampQ_mono hq
    have h0 : clampQ 0 = 0 := by unfold clampQ; norm_num
    linarith [h0 ▸ this]
  · -- a outside the deadzone, b inside: a ≤ -DEADZONE < 0
    have ha : a ≤ 0 := by
      simp only [DEADZONE] at h1 h2
      have h2' := abs_lt.mp h2
      rcases le_abs.mp (not_lt.mp h1) with h | h <;> omega
    apply truncQ_nonpos
    have hq : quadResponse a ≤ 0 := by
      have := quadResponse_nonneg (by omega : (0 : Int) ≤ -a)
      rw [quadResponse_neg] at this
      linarith
    have := clampQ_mono hq
    have h0 : clampQ 0 = 0 := by unfold clampQ; norm_num
    linarith [h0 ▸ this]
  · exact truncQ_mono (clampQ_mono (quadResponse_mono h))

lemma potOut_neg (c : Int) : potOut (-c) = -potOut c := by
  unfold potOut
  rw [abs_neg]
  split_ifs
  · rfl
  · rw [quadResponse_neg, clampQ_neg, truncQ_neg]

lemma potOut_bounds (c : Int) : -255 ≤ potOut c ∧ potOut c ≤ 255 := by
  unfold potOut
  split_ifs
  · constructor <;> norm_num
  · obtain ⟨h1, h2⟩ := clampQ_bounds (quadResponse c)
    constructor
    · have := truncQ_mono h1
      rwa [show truncQ (-255 : ℚ) = -255 by
        rw [show ((-255 : ℚ)) = ((-255 : Int) : ℚ) by norm_num, truncQ_intCast]] at this
    · have := truncQ_mono h2
      rwa [show truncQ (255 : ℚ) = 255 by
        rw [show ((255 : ℚ)) = ((255 : Int) : ℚ) by norm_num, truncQ_intCast]] at this

/-- **C7.**  Any sample whose truncated smoothed value lies within the
deadzone of the midpoint yields output exactly 0 (stated both over the
rational smoothing state and over integer averaged samples), and a constant
input is a fixed point of the exponential smoothing, so a constant sample
held within the deadzone keeps the output at 0 forever. -/
theorem c7_deadzone_zero :
    (∀ q : ℚ, |truncQ q - 2047| < 600 → read_pot_with_deadzone q = 0) ∧
    (∀ n : Int, |n - 2047| < 600 → read_pot_with_deadzone (n : ℚ) = 0) ∧
    (∀ r : ℚ, ema_step r r = r) := by
  have hz : ∀ q : ℚ, |truncQ q - 2047| < 600 → read_pot_with_deadzone q = 0 := by
    intro q h
    rw [read_pot_eq_potOut]
    unfold potOut
    rw [if_pos]
    simpa [DEADZONE] using h
  refine ⟨hz, ?_, ?_⟩
  · intro n h
    apply hz
    rwa [truncQ_intCast]
  · intro r
    unfold ema_step SMOOTHING_FACTOR
    ring

/-- Witness for C7 at the integer sample 2200 (centered 153, inside the
deadzone). -/
theorem c7_deadzone_zero_witness :
    |(2200 : Int) - 2047| < 600 ∧ read_pot_with_deadzone ((2200 : Int) : ℚ) = 0 :=
  ⟨by decide, c7_deadzone_zero.2.1 2200 (by decide)⟩

/-- **C8.**  The filter output is monotonically non-decreasing in the
smoothed input, odd-symmetric about the midpoint
(`filter(mid - d) = -filter(mid + d)` for every integer offset `d`), and
always clamped to `[-255, 255]`. -/
theorem c8_monotone_odd_clamped :
    (∀ q1 q2 : ℚ, q1 ≤ q2 → read_pot_with_deadzone q1 ≤ read_pot_with_deadzone q2) ∧
    (∀ d : Int, read_pot_with_deadzone ((2047 : ℚ) - (d : ℚ)) =
      -read_pot_with_deadzone ((2047 : ℚ) + (d : ℚ))) ∧
    (∀ q : ℚ, -255 ≤ read_pot_with_deadzone q ∧ read_pot_with_deadzone q ≤ 255) := by
  refine ⟨?_, ?_, ?_⟩
  · intro q1 q2 h
    rw [read_pot_eq_potOut, read_pot_eq_potOut]
    exact potOut_mono (by have := truncQ_mono h; omega)
  · intro d
    rw [read_pot_eq_potOut, read_pot_eq_potOut]
    have h1 : (2047 : ℚ) - (d : ℚ) = (((2047 - d : Int) : ℚ)) := by push_cast; ring
    have h2 : (2047 : ℚ) + (d : ℚ) = (((2047 + d : Int) : ℚ)) := by push_cast; ring
    rw [h1, h2, truncQ_intCast, truncQ_intCast]
    rw [show (2047 - d - 2047 : Int) = -(2047 + d - 2047) by ring]
    exact potOut_neg _
  · intro q
    rw [read_pot_eq_potOut]
    exact potOut_bounds _

/-- Witness for C8: monotonicity applied at the concrete smoothed inputs
1200 ≤ 3000. -/
theorem c8_monotone_odd_clamped_witness :
    (1200 : ℚ) ≤ 3000 ∧
    read_pot_with_deadzone (1200 : ℚ) ≤ read_pot_with_deadzone (3000 : ℚ) :=
  ⟨by norm_num, c8_monotone_odd_clamped.1 1200 3000 (by norm_num)⟩

/-- Witness for C10: a WAIT_PLATE_2 state with a marker of ID 7 at the
origin arms the flag. -/
theorem c10_wait2_no_id_check_witness :
    (let s : SysState :=
      { demoWait1 with current_state := .WAIT_PLATE_2,
                       camera := { current_x := 0, current_y := 0,
                                   detected_marker := ⟨7, 0, 0, true⟩,
                                   marker_detected := true } }
     (state_machine_update (quietTick 700) s).waiting_for_confirmation = true ∧
     (state_machine_update (quietTick 700) s).current_state = .WAIT_PLATE_2) :=
  (c10_wait2_no_id_check _ _).1 rfl rfl rfl rfl rfl

/-! ## Claim C3 — target swap (corrected) -/

/-- **C3, counterexample.**  The first ID-2 detection at the origin swaps the
targets, but when the reported marker leaves the origin the pending flag
resets, and a renewed ID-2 detection swaps the targets *again*: at pickup
confirmation plate 1 once more holds the first configured target (1,4) —
the targets were swapped twice, not exactly once, in this run. -/
theorem c3_counterexample :
    c3swapOnce.plate_1.target_x = 3 ∧ c3swapOnce.plate_1.target_y = 2 ∧
    c3run.current_state = .PICK_PLATE_1 ∧
    c3run.camera.detected_marker.id = 2 ∧
    c3run.plate_1.target_x = 1 ∧ c3run.plate_1.target_y = 4 ∧
    c3run.plate_2.target_x = 3 ∧ c3run.plate_2.target_y = 2 := by
  decide

/-- **C3, amended.**  The swap happens exactly when the pending-confirmation
flag of WAIT_PLATE_1 arms with a detected marker of ID 2 at the origin
(once per arming — while the flag stays armed no further swap occurs), and
never with ID 1; if detection lapses and re-arms with ID 2, the swap
repeats. -/
theorem c3_amended_swap_per_arming (s : SysState) (i : TickInput)
    (hs : s.current_state = .WAIT_PLATE_1)
    (hm : s.camera.marker_detected = true)
    (hr : s.camera.detected_marker.grid_row = 0)
    (hc : s.camera.detected_marker.grid_col = 0)
    (hid : s.camera.detected_marker.id = 1 ∨ s.camera.detected_marker.id = 2) :
    (s.waiting_for_confirmation = false →
      (state_machine_update i s).waiting_for_confirmation = true ∧
      (s.camera.detected_marker.id = 2 →
        (state_machine_update i s).plate_1.target_x = s.plate_2.target_x ∧
        (state_machine_update i s).plate_1.target_y = s.plate_2.target_y ∧
        (state_machine_update i s).plate_2.target_x = s.plate_1.target_x ∧
        (state_machine_update i s).plate_2.target_y = s.plate_1.target_y) ∧
      (s.camera.detected_marker.id = 1 →
        (state_machine_update i s).plate_1 = s.plate_1 ∧
        (state_machine_update i s).plate_2 = s.plate_2)) ∧
    (s.waiting_for_confirmation = true →
      (state_machine_update i s).plate_1 = s.plate_1 ∧
      (state_machine_update i s).plate_2 = s.plate_2) := by
  have hd : wait1_detect s = true := by
    simp [wait1_detect, hm, hr, hc, hid]
  constructor
  · intro hw
    refine ⟨?_, ?_, ?_⟩
    · simp [state_machine_update, hs, hd, hw]
    · intro h2
      simp [state_machine_update, hs, hd, hw, h2, swap_plate_targets]
    · intro h1
      simp [state_machine_update, hs, hd, hw, h1]
  · intro hw
    by_cases hbtn : i.button = true <;>
      simp [state_machine_update, hs, hd, hw, hbtn, magnet_set]

/-- Witness for C3 (amended): a concrete WAIT_PLATE_1 state with marker
ID 2 at the origin, pending flag clear. -/
theorem c3_amended_swap_per_arming_witness :
    (let s : SysState :=
      { demoWait1 with camera := { current_x := 0, current_y := 0,
                                   detected_marker := ⟨2, 0, 0, true⟩,
                                   marker_detected := true } }
     (state_machine_update (quietTick 700) s).waiting_for_confirmation = true ∧
     (state_machine_update (quietTick 700) s).plate_1.target_x = s.plate_2.target_x) := by
  have h := c3_amended_swap_per_arming
    { demoWait1 with camera := { current_x := 0, current_y := 0,
                                 detected_marker := ⟨2, 0, 0, true⟩,
                                 marker_detected := true } }
    (quietTick 700) rfl rfl rfl rfl (Or.inr rfl)
  exact ⟨(h.1 rfl).1, ((h.1 rfl).2.1 rfl).1⟩

/-! ## Claim C4 — grid coordinates in [0,4] (corrected) -/

/-- **C4, counterexample.**  A position report `1,9,9` received in
WAIT_PLATE_1 is stored verbatim: the detected-marker cell and the current
position all become 9, outside `[0,4]` — the parser performs no range
validation. -/
theorem c4_counterexample :
    c4bad.camera.detected_marker.grid_row = 9 ∧
    c4bad.camera.detected_marker.grid_col = 9 ∧
    c4bad.camera.current_x = 9 ∧
    c4bad.camera.current_y = 9 ∧
    ¬ coordsInRange c4bad := by
  decide

lemma handle_serial_line_range (line : List Char) (s : SysState)
    (hcr : coordsInRange s) (hok : lineOK line = true) :
    coordsInRange (handle_serial_line line s) := by
  obtain ⟨h1, h2, h3, h4, h5, h6, h7, h8⟩ := hcr
  unfold handle_serial_line
  unfold lineOK at hok
  by_cases hp : ("PICKUP,".toList).isPrefixOf line
  · rw [if_pos hp] at hok ⊢
    cases hmp : parse3Ints (line.drop 7) with
    | none => simpa using ⟨h1, h2, h3, h4, h5, h6, h7, h8⟩
    | some v =>
      obtain ⟨a, r, c⟩ := v
      rw [hmp] at hok
      have hrc : coordOK r ∧ coordOK c := of_decide_eq_true hok
      split_ifs
      · exact ⟨h1, h2, h3, h4, hrc.2, hrc.1, h7, h8⟩
      · exact ⟨h1, h2, h3, h4, h5, h6, hrc.2, hrc.1⟩
      · exact ⟨h1, h2, h3, h4, h5, h6, h7, h8⟩
  · rw [if_neg hp] at hok ⊢
    by_cases hrel : ("RELEASE".toList).isPrefixOf line
    · rw [if_pos hrel]
      split_ifs <;> exact ⟨h1, h2, h3, h4, h5, h6, h7, h8⟩
    · rw [if_neg hrel] at hok ⊢
      cases hmp : parse3Ints line with
      | none => exact ⟨h1, h2, h3, h4, h5, h6, h7, h8⟩
      | some v =>
        obtain ⟨a, r, c⟩ := v
        rw [hmp] at hok
        have hrc : coordOK r ∧ coordOK c := of_decide_eq_true hok
        exact ⟨hrc.2, hrc.1, hrc.1, hrc.2, h5, h6, h7, h8⟩

lemma state_machine_update_range (i : TickInput) (s : SysState)
    (hcr : coordsInRange s) :
    coordsInRange (state_machine_update i s) := by
  obtain ⟨h1, h2, h3, h4, h5, h6, h7, h8⟩ := hcr
  cases hcs : s.current_state <;>
    simp only [state_machine_update, hcs, init_targets_from_qr, magnet_set,
      homing_sequence, motors_stop, update_motors_from_pots_hbot,
      magnet_release_hold, magnet_release_final, swap_plate_targets,
      qr_sequence] <;>
    (try split_ifs) <;>
    first
      | exact ⟨h1, h2, h3, h4, h5, h6, h7, h8⟩
      | exact ⟨h1, h2, h3, h4, h7, h8, h5, h6⟩
      | exact ⟨⟨by norm_num, by norm_num⟩, ⟨by norm_num, by norm_num⟩,
               h3, h4, h5, h6, h7, h8⟩
      | exact ⟨h1, h2, h3, h4, ⟨by norm_num, by norm_num⟩, ⟨by norm_num, by norm_num⟩,
               ⟨by norm_num, by norm_num⟩, ⟨by norm_num, by norm_num⟩⟩

lemma handle_serial_line_buffer (line b : List Char) (s : SysState) :
    handle_serial_line line { s with serial_buffer := b } =
      { handle_serial_line line s with serial_buffer := b } := by
  unfold handle_serial_line
  cases hp : parse3Ints (line.drop 7) <;> cases hq : parse3Ints line <;>
    split_ifs <;> rfl

lemma poll_serial_accumulate (cs : List Char) (s : SysState)
    (hclean : ∀ c ∈ cs, c ≠ '\n' ∧ c ≠ '\r')
    (hlen : s.serial_buffer.length + cs.length ≤ 127) :
    poll_serial cs s = { s with serial_buffer := s.serial_buffer ++ cs } := by
  induction cs generalizing s with
  | nil => simp [poll_serial]
  | cons c cs ih =>
    have hc := hclean c (List.mem_cons_self c cs)
    have hstep : poll_char s c = { s with serial_buffer := s.serial_buffer ++ [c] } := by
      unfold poll_char
      rw [if_neg hc.2, if_neg hc.1, if_pos]
      simp at hlen
      omega
    calc poll_serial (c :: cs) s = poll_serial cs (poll_char s c) := by
          simp [poll_serial]
      _ = { s with serial_buffer := s.serial_buffer ++ [c] ++ cs } := by
          rw [hstep, ih _ (fun x hx => hclean x (List.mem_cons_of_mem c hx))]
          simp at hlen ⊢
          omega
      _ = { s with serial_buffer := s.serial_buffer ++ c :: cs } := by
          simp

lemma poll_serial_single_line (cs : List Char) (s : SysState)
    (hb : s.serial_buffer = [])
    (hclean : ∀ c ∈ cs, c ≠ '\n' ∧ c ≠ '\r')
    (hlen : cs.length ≤ 127) :
    poll_serial (cs ++ ['\n']) s =
      { handle_serial_line cs s with serial_buffer := [] } := by
  have hacc := poll_serial_accumulate cs s hclean (by simp [hb]; omega)
  have : poll_serial (cs ++ ['\n']) s = poll_char (poll_serial cs s) '\n' := by
    simp [poll_serial]
  rw [this, hacc, hb]
  show poll_char { s with serial_buffer := [] ++ cs } '\n' = _
  unfold poll_char
  rw [if_neg (by decide), if_pos rfl]
  rw [show ({ s with serial_buffer := [] ++ cs } : SysState) =
        { ({ s with serial_buffer := cs } : SysState) with serial_buffer := cs } by simp]
  rw [show ({ ({ s with serial_buffer := cs } : SysState) with serial_buffer := cs } : SysState) =
        { s with serial_buffer := cs } by simp]
  rw [show ({ s with serial_buffer := cs } : SysState) =
        { s with serial_buffer := cs } from rfl]
  rw [handle_serial_line_buffer cs cs s]

/-- **C4, amended.**  Stored grid coordinates remain in `[0,4]` *provided*
the received lines carry in-range coordinates: if a tick delivers one
complete line whose parsed coordinates (if any) lie in `[0,4]`, every stored
coordinate that was in range stays in range, and the state-machine phase
(QR target initialization, homing, target swap) preserves the range on its
own; the line handler itself performs no validation, so the restriction to
in-range input is necessary. -/
theorem c4_amended_range_preserved (s : SysState) (i : TickInput) (cs : List Char)
    (hb : s.serial_buffer = [])
    (hser : i.serial = cs ++ ['\n'])
    (hclean : ∀ c ∈ cs, c ≠ '\n' ∧ c ≠ '\r')
    (hlen : cs.length ≤ 127)
    (hok : lineOK cs = true)
    (hcr : coordsInRange s) :
    coordsInRange (tick i s) ∧ coordsInRange initialState := by
  constructor
  · unfold tick
    rw [hser, poll_serial_single_line cs s hb hclean hlen]
    apply state_machine_update_range
    have h := handle_serial_line_range cs s hcr hok
    exact h
  · decide

/-- Witness for C4 (amended): the in-range report `1,2,3` keeps the
(initial, in-range) state in range. -/
theorem c4_amended_range_preserved_witness :
    initialState.serial_buffer = [] ∧
    lineOK ("1,2,3".toList) = true ∧
    coordsInRange initialState ∧
    coordsInRange (tick (serialTick "1,2,3\n" 50) initialState) :=
  ⟨rfl, by decide, by decide,
   (c4_amended_range_preserved initialState (serialTick "1,2,3\n" 50) ("1,2,3".toList)
     rfl rfl (by decide) (by decide) (by decide) (by decide)).1⟩

/-! ## Claim C9 — overlong-line handling (corrected) -/

/-- **C9, counterexample.**  From the reachable state `demoMove1`
(MOVE_PLATE_1, empty buffer), one overlong 136-byte line — 128 filler bytes
followed by `RELEASE` and the terminator — is *not* wholly discarded: the
first 127 bytes fill the buffer, the 128th resets it, and the remaining
bytes `RELEASE` are then handled as a complete line, executing the release
command and moving the workflow to WAIT_PLATE_2. -/
theorem c9_counterexample :
    demoMove1.current_state = .MOVE_PLATE_1 ∧
    demoMove1.serial_buffer = [] ∧
    c9run.current_state = .WAIT_PLATE_2 ∧
    c9run.plate_1.placed = true := by
  set_option maxRecDepth 4000 in decide

lemma poll_char_buffer_le (s : SysState) (c : Char)
    (h : s.serial_buffer.length ≤ 127) :
    (poll_char s c).serial_buffer.length ≤ 127 := by
  unfold poll_char
  split_ifs with h1 h2 h3 <;> simp_all
  omega

lemma poll_char_no_newline (s : SysState) (c : Char) (h : c ≠ '\n') :
    dropBuffer (poll_char s c) = dropBuffer s := by
  unfold poll_char dropBuffer
  split_ifs <;> simp_all

/-- **C9, amended.**  The parser never crashes, blocks, or overruns its
buffer: the accumulation index always stays within the 127-byte capacity,
and input containing no line terminator is never handled as a command (only
the buffer changes).  However, an overlong line is not wholly discarded —
the overflow resets the index, so the at-most-127-byte tail accumulated
after the last reset is handled as a complete line when the terminator
arrives (see the counterexample). -/
theorem c9_amended_overflow_resets (chars : List Char) (s : SysState)
    (hb : s.serial_buffer.length ≤ 127) :
    (poll_serial chars s).serial_buffer.length ≤ 127 ∧
    ('\n' ∉ chars → dropBuffer (poll_serial chars s) = dropBuffer s) := by
  induction chars generalizing s with
  | nil => exact ⟨hb, fun _ => rfl⟩
  | cons c cs ih =>
    have hstep : poll_serial (c :: cs) s = poll_serial cs (poll_char s c) := by
      simp [poll_serial]
    obtain ⟨ih1, ih2⟩ := ih (poll_char s c) (poll_char_buffer_le s c hb)
    refine ⟨by rwa [hstep], ?_⟩
    intro hn
    rw [hstep, ih2 (fun hx => hn (List.mem_cons_of_mem c hx)),
      poll_char_no_newline s c (fun he => hn (he ▸ List.mem_cons_self c cs))]

/-- Witness for C9 (amended) on a concrete terminator-free fragment. -/
theorem c9_amended_overflow_resets_witness :
    initialState.serial_buffer.length ≤ 127 ∧
    (poll_serial ("PICKUP,1".toList) initialState).serial_buffer.length ≤ 127 ∧
    dropBuffer (poll_serial ("PICKUP,1".toList) initialState) = dropBuffer initialState :=
  ⟨by decide,
   (c9_amended_overflow_resets ("PICKUP,1".toList) initialState (by decide)).1,
   (c9_amended_overflow_resets ("PICKUP,1".toList) initialState (by decide)).2 (by decide)⟩

/-! ## Claim C2 — placement-timer discipline (corrected) -/

/-- **C2, counterexample.**  At the tick boundary reached by `demoMove1`
the workflow is in MOVE_PLATE_1 and the current position already equals
plate 1's target (a report placed it there during the PICK tick), yet the
placement timer is unarmed — refuting "armed iff position equals the active
target" at every tick boundary.  (Arming happens one tick later, when the
MOVE branch runs.) -/
theorem c2_counterexample :
    demoMove1.current_state = .MOVE_PLATE_1 ∧
    check_target_reached demoMove1 demoMove1.plate_1.target_x demoMove1.plate_1.target_y = true ∧
    demoMove1.placement_start_time = 0 := by
  decide

lemma timerInv_weak {s : SysState} (h : timerInv s) : timerInvWeak s :=
  ⟨h.1, fun hv => hv.elim (fun h1 => (h.2.1 h1).1) (fun h2 => (h.2.2 h2).1)⟩

lemma handle_serial_line_weak (line : List Char) (s : SysState)
    (h : timerInvWeak s) : timerInvWeak (handle_serial_line line s) := by
  obtain ⟨hm, hv⟩ := h
  unfold handle_serial_line
  cases hp : parse3Ints (line.drop 7) <;> cases hq : parse3Ints line <;>
    split_ifs <;>
    first
      | exact ⟨hm, hv⟩
      | exact ⟨fun _ => rfl, fun hx => by rcases hx with hx | hx <;> simp at hx⟩

lemma poll_char_weak (s : SysState) (c : Char)
    (h : timerInvWeak s) : timerInvWeak (poll_char s c) := by
  unfold poll_char
  split_ifs
  · exact h
  · exact handle_serial_line_weak s.serial_buffer s h
  · exact h
  · exact h

lemma poll_serial_weak (chars : List Char) (s : SysState)
    (h : timerInvWeak s) : timerInvWeak (poll_serial chars s) := by
  induction chars generalizing s with
  | nil => exact h
  | cons c cs ih =>
    have hstep : poll_serial (c :: cs) s = poll_serial cs (poll_char s c) := by
      simp [poll_serial]
    rw [hstep]
    exact ih _ (poll_char_weak s c h)

lemma state_machine_update_weak_inv (i : TickInput) (s : SysState)
    (ht : i.time ≠ 0) (h : timerInvWeak s) :
    timerInv (state_machine_update i s) := by
  obtain ⟨hm, hv⟩ := h
  cases hcs : s.current_state
  case INIT =>
    simp [state_machine_update, hcs, timerInv, init_targets_from_qr, magnet_set]
  case HOMING =>
    simp [state_machine_update, hcs, timerInv, homing_sequence, magnet_set, motors_stop]
  case WAIT_PLATE_1 =>
    simp only [state_machine_update, hcs]
    split_ifs <;> simp [timerInv, swap_plate_targets, magnet_set, hcs]
  case PICK_PLATE_1 =>
    simp [state_machine_update, hcs, timerInv]
  case MOVE_PLATE_1 =>
    have h0 : s.placement_start_time = 0 := hm (Or.inl hcs)
    simp only [state_machine_update, hcs]
    split_ifs with h1 h2
    · refine ⟨fun hx => ?_, fun _ => ⟨ht, ?_⟩, fun hx => ?_⟩
      · simp at hx
      · exact h1
      · simp at hx
    · exact absurd h0 h2
    · refine ⟨fun _ => h0, fun hx => ?_, fun hx => ?_⟩ <;>
        simp [update_motors_from_pots_hbot, hcs] at hx
  case VERIFY_PLATE_1 =>
    have hne : s.placement_start_time ≠ 0 := hv (Or.inl hcs)
    simp only [state_machine_update, hcs]
    split_ifs with h1 h2
    · -- still at target, dwell elapsed → WAIT_PLATE_2 (all conditions vacuous)
      refine ⟨fun hx => ?_, fun hx => ?_, fun hx => ?_⟩ <;> simp at hx
    · -- still at target, dwell not elapsed → stays in VERIFY_PLATE_1
      refine ⟨fun hx => ?_, fun _ => ⟨hne, h1⟩, fun hx => ?_⟩ <;>
        simp [update_motors_from_pots_hbot, hcs] at hx
    · -- position deviated → back to MOVE_PLATE_1, timer disarmed
      refine ⟨fun _ => rfl, fun hx => ?_, fun hx => ?_⟩ <;> simp at hx
  case WAIT_PLATE_2 =>
    simp only [state_machine_update, hcs]
    split_ifs <;> simp [timerInv, magnet_set, hcs]
  case PICK_PLATE_2 =>
    simp [state_machine_update, hcs, timerInv]
  case MOVE_PLATE_2 =>
    have h0 : s.placement_start_time = 0 := hm (Or.inr hcs)
    simp only [state_machine_update, hcs]
    split_ifs with h1 h2
    · refine ⟨fun hx => ?_, fun hx => ?_, fun _ => ⟨ht, ?_⟩⟩
      · simp at hx
      · simp at hx
      · exact h1
    · exact absurd h0 h2
    · refine ⟨fun _ => h0, fun hx => ?_, fun hx => ?_⟩ <;>
        simp [update_motors_from_pots_hbot, hcs] at hx
  case VERIFY_PLATE_2 =>
    have hne : s.placement_start_time ≠ 0 := hv (Or.inr hcs)
    simp only [state_machine_update, hcs]
    split_ifs with h1 h2
    · -- still at target, dwell elapsed → COMPLETE (all conditions vacuous)
      refine ⟨fun hx => ?_, fun hx => ?_, fun hx => ?_⟩ <;> simp at hx
    · -- still at target, dwell not elapsed → stays in VERIFY_PLATE_2
      refine ⟨fun hx => ?_, fun hx => ?_, fun _ => ⟨hne, h1⟩⟩ <;>
        simp [update_motors_from_pots_hbot, hcs] at hx
    · -- position deviated → back to MOVE_PLATE_2, timer disarmed
      refine ⟨fun _ => rfl, fun hx => ?_, fun hx => ?_⟩ <;> simp at hx
  case COMPLETE =>
    simp [state_machine_update, hcs, timerInv, motors_stop]

/-- **C2, amended.**  At tick boundaries the placement-timer discipline is:
in a MOVE state the timer is always unarmed — *even when the position
already equals the target*, the arming (and the move to VERIFY) happens on
the next tick — and in a VERIFY state the timer is armed and the position
equals the active target (`timerInv`, preserved by every tick whose clock
reading is nonzero).  Within the state-machine phase of a tick, a position
deviation in VERIFY disarms the timer and returns to MOVE in that same
tick, and the state machine's own transition out of VERIFY to the next
workflow phase occurs only when the elapsed time since arming reaches the
5000 ms dwell (the serial `RELEASE` override is a separate, documented
bypass). -/
theorem c2_amended_timer_discipline (s : SysState) (i : TickInput)
    (h : timerInv s) (ht : i.time ≠ 0) :
    timerInv (tick i s) ∧
    (∀ s2 : SysState, s2.current_state = .VERIFY_PLATE_1 →
      check_target_reached s2 s2.plate_1.target_x s2.plate_1.target_y = false →
      (state_machine_update i s2).placement_start_time = 0 ∧
      (state_machine_update i s2).current_state = .MOVE_PLATE_1) ∧
    (∀ s2 : SysState, s2.current_state = .VERIFY_PLATE_1 →
      (state_machine_update i s2).current_state = .WAIT_PLATE_2 →
      u32sub i.time s2.placement_start_time ≥ PLACEMENT_TIME) ∧
    (∀ s2 : SysState, s2.current_state = .VERIFY_PLATE_2 →
      (state_machine_update i s2).current_state = .COMPLETE →
      u32sub i.time s2.placement_start_time ≥ PLACEMENT_TIME) := by
  refine ⟨?_, ?_, ?_, ?_⟩
  · exact state_machine_update_weak_inv i (poll_serial i.serial s) ht
      (poll_serial_weak i.serial s (timerInv_weak h))
  · intro s2 hs2 hdev
    simp only [state_machine_update, hs2]
    split_ifs with h1 h2
    · have h1' : check_target_reached s2 s2.plate_1.target_x s2.plate_1.target_y = true := h1
      rw [hdev] at h1'
      exact absurd h1' (by decide)
    · have h1' : check_target_reached s2 s2.plate_1.target_x s2.plate_1.target_y = true := h1
      rw [hdev] at h1'
      exact absurd h1' (by decide)
    · exact ⟨rfl, rfl⟩
  · intro s2 hs2
    simp only [state_machine_update, hs2]
    split_ifs with h1 h2
    · intro _
      exact h2
    · intro hx
      simp [update_motors_from_pots_hbot, hs2] at hx
    · intro hx
      simp at hx
  · intro s2 hs2
    simp only [state_machine_update, hs2]
    split_ifs with h1 h2
    · intro _
      exact h2
    · intro hx
      simp [update_motors_from_pots_hbot, hs2] at hx
    · intro hx
      simp at hx

/-- Witness for C2 (amended) at the initial state and a tick at 100 ms. -/
theorem c2_amended_timer_discipline_witness :
    timerInv initialState ∧ (quietTick 100).time ≠ 0 ∧
    timerInv (tick (quietTick 100) initialState) :=
  ⟨by decide, by decide,
   (c2_amended_timer_discipline initialState (quietTick 100) (by decide) (by decide)).1⟩

end EmbeddedMS3
